import Mathlib

/-!
Verification development for the `mcp-google-spreadsheet` MCP server
(Go sources: `google-drive.go` / `google-sheet.go`).

The Go code is shallowly embedded: the Google Drive file listing service is
modelled as a finite list of file entries (`Store`), every `Files.List`
query issued during path resolution is recorded in an explicit call trace,
and each tool handler's pure argument-to-request translation is modelled as
a Lean function returning `Except`.  Machine integers (`int64` in Go) are
modelled as `Int`; all claims quantify only over ranges where the Go
arithmetic does not overflow.
-/

deriving instance DecidableEq for Except

namespace McpGSheet

/-! ## String helpers

Structurally recursive equivalents of Go's `strings.Split`,
`strings.Join`, `strings.HasPrefix`, `strings.TrimSuffix` and of
substring containment, chosen so that every model function evaluates
inside the kernel. -/

/-- Go `strings.Split` on a one-character separator, on character lists:
`splitOnChar sep []` is `[[]]`, matching `strings.Split("", sep)`. -/
def splitOnChar (sep : Char) : List Char → List (List Char)
  | [] => [[]]
  | c :: rest =>
    if c = sep then [] :: splitOnChar sep rest
    else
      match splitOnChar sep rest with
      | [] => [[c]]
      | g :: gs => (c :: g) :: gs

/-- Go `strings.Split(s, sep)` for a one-character separator. -/
def strSplit (s : String) (sep : Char) : List String :=
  (splitOnChar sep s.toList).map String.mk

/-- Go `strings.Join(l, sep)`. -/
def strJoin (sep : String) : List String → String
  | [] => ""
  | [x] => x
  | x :: y :: rest => x ++ sep ++ strJoin sep (y :: rest)

/-- Go `strings.HasPrefix(s, pre)`. -/
def strHasPrefix (s pre : String) : Bool :=
  pre.toList.isPrefixOf s.toList

/-- Go `strings.TrimSuffix(s, "/")`. -/
def trimSlashSuffix (s : String) : String :=
  match s.toList.reverse with
  | c :: rest => if c = '/' then String.mk rest.reverse else s
  | [] => s

/-- Does `hay` contain `needle` as a contiguous substring? -/
def hasSubstr (needle : List Char) : List Char → Bool
  | [] => needle.isEmpty
  | c :: rest => needle.isPrefixOf (c :: rest) || hasSubstr needle rest

/-- Does the string `hay` contain the string `needle`? -/
def strContains (hay needle : String) : Bool :=
  hasSubstr needle.toList hay.toList

/-! ## Go `path.Clean`

`path.Clean` from the Go standard library, restricted to what the server
uses: it is the purely lexical normalization (drop empty and `.` segments,
cancel a non-`..` segment followed by `..`, keep leading `..` segments on
relative paths, drop them on rooted paths, return `.` for an empty result,
keep a leading `/`). -/

/-- Segment loop of Go `path.Clean`: `acc` holds the output segments in
reverse. -/
def cleanSegsLoop (rooted : Bool) : List String → List String → List String
  | acc, [] => acc.reverse
  | acc, s :: rest =>
    if s = "" || s = "." then
      cleanSegsLoop rooted acc rest
    else if s = ".." then
      match acc with
      | [] => if rooted then cleanSegsLoop rooted [] rest
              else cleanSegsLoop rooted [".."] rest
      | a :: as =>
        if a = ".." then cleanSegsLoop rooted (".." :: a :: as) rest
        else cleanSegsLoop rooted as rest
    else
      cleanSegsLoop rooted (s :: acc) rest

/-- Go `path.Clean`. -/
def cleanPath (p : String) : String :=
  if p = "" then "."
  else
    let rooted := strHasPrefix p "/"
    let segs := cleanSegsLoop rooted [] (strSplit p '/')
    let joined := strJoin "/" segs
    if rooted then "/" ++ joined
    else if joined = "" then "." else joined

/-- Go `path.Split`: split after the final slash; the directory part keeps
its trailing slash, and is empty when the path holds no slash. -/
def pathSplit (p : String) : String × String :=
  let cs := p.toList
  let fileRev := cs.reverse.takeWhile (fun c => c ≠ '/')
  (String.mk (cs.take (cs.length - fileRev.length)), String.mk fileRev.reverse)

/-! ## The Drive file store -/

/-- One non-deleted-or-deleted file known to the Drive service. -/
structure Entry where
  id : String
  parent : String
  name : String
  mime : String
  trashed : Bool
deriving DecidableEq, Repr

/-- The Drive service state: a flat list of entries, in the service's
result order. -/
abbrev Store := List Entry

def mimeFolder : String := "application/vnd.google-apps.folder"

def mimeSpreadsheet : String := "application/vnd.google-apps.spreadsheet"

/-- One `Files.List` query issued during path resolution: the `'parent' in
parents and name = 'name' and trashed = false` filter, plus the optional
`mimeType = m` clause. -/
structure Call where
  parent : String
  name : String
  mime : Option String
deriving DecidableEq, Repr

/-- Result list of a Drive-side query without a mime clause
(`getFileIDByPathWithContext`). -/
def driveQuery (st : Store) (parent name : String) : List Entry :=
  st.filter (fun e => e.parent = parent && e.name = name && e.trashed = false)

/-- Result list of a Drive-side query with a mime clause
(`getSpreadsheetIdWithContext`). -/
def sheetQuery (st : Store) (parent name mt : String) : List Entry :=
  st.filter (fun e =>
    e.parent = parent && e.name = name && e.mime = mt && e.trashed = false)

/-! ## Drive path resolution (`google-drive.go`) -/

/-- Errors of `getFileIDByPathWithContext` / `getParentIDAndFileName`,
abbreviating the Go `fmt.Errorf` messages; the string payloads are exactly
the `%s` arguments of the corresponding format strings. -/
inductive DriveErr where
  /-- "invalid path: directory traversal is not allowed" -/
  | invalidPath
  /-- "invalid path: path is empty" -/
  | emptyPath
  /-- "file not found: %s" (the cleaned full path) -/
  | fileNotFound (p : String)
  /-- "path not found: %s" (the consumed segments joined by "/") -/
  | pathNotFound (consumed : String)
  /-- failure of a `Files.Get` by id -/
  | getFailed (id : String)
deriving DecidableEq, Repr

/-- Per-segment loop of `getFileIDByPathWithContext`; `fp` is the cleaned
full path (used in the last-segment error), `done` the segments already
consumed.  Returns the result and the trace of issued store queries. -/
def driveLoop (st : Store) (fp : String) :
    String → List String → List String → Except DriveErr String × List Call
  | parent, _, [] => (Except.ok parent, [])
  | parent, done, p :: rest =>
    let call : Call := ⟨parent, p, none⟩
    match driveQuery st parent p with
    | [] =>
      if rest.isEmpty then (Except.error (DriveErr.fileNotFound fp), [call])
      else
        (Except.error (DriveErr.pathNotFound
          (strJoin "/" (done ++ [p]))), [call])
    | e :: _ =>
      let res := driveLoop st fp e.id (done ++ [p]) rest
      (res.1, call :: res.2)

/-- `getFileIDByPathWithContext`: clean, reject traversal, return the root
for the empty path, else walk the segments. -/
def getFileIDByPath (st : Store) (rootID filePath : String) :
    Except DriveErr String × List Call :=
  let fp := cleanPath filePath
  if strHasPrefix fp ".." || strHasPrefix fp "/" then
    (Except.error DriveErr.invalidPath, [])
  else if fp = "." || fp = "" then (Except.ok rootID, [])
  else driveLoop st fp rootID [] (strSplit fp '/')

/-- `getParentIDAndFileName`: clean, reject traversal and the empty path,
split off the leaf, resolve the directory part (root when absent). -/
def getParentIDAndFileName (st : Store) (rootID filePath : String) :
    Except DriveErr (String × String) × List Call :=
  let fp := cleanPath filePath
  if strHasPrefix fp ".." || strHasPrefix fp "/" then
    (Except.error DriveErr.invalidPath, [])
  else if fp = "." || fp = "" then (Except.error DriveErr.emptyPath, [])
  else
    let dir := (pathSplit fp).1
    let fileName := (pathSplit fp).2
    if dir = "" then (Except.ok (rootID, fileName), [])
    else
      let dir' := trimSlashSuffix dir
      match getFileIDByPath st rootID dir' with
      | (Except.ok pid, calls) => (Except.ok (pid, fileName), calls)
      | (Except.error e, calls) => (Except.error e, calls)

/-- Does the raw (uncleaned) input contain a `..` segment? -/
def hasDotDotSegment (p : String) : Bool :=
  (strSplit p '/').contains ".."

/-! ## Spreadsheet path resolution (`google-sheet.go`) -/

/-- Errors of `getSpreadsheetIdWithContext`. -/
inductive SheetErr where
  /-- "invalid path: directory traversal is not allowed" -/
  | invalidPath
  /-- "spreadsheet name cannot be empty" -/
  | emptyName
  /-- "spreadsheet not found: '%s'. ..." (the original, uncleaned input) -/
  | spreadsheetNotFound (orig : String)
  /-- "folder not found: '%s'. ..." (the consumed segments joined by "/") -/
  | folderNotFound (consumed : String)
deriving DecidableEq, Repr

/-- Per-segment loop of `getSpreadsheetIdWithContext`: every segment but
the last is looked up with the folder mime clause, the last with the
spreadsheet mime clause; `orig` is the original input (used in the
last-segment error), `done` the segments already consumed. -/
def sheetLoop (st : Store) (orig : String) :
    String → List String → List String → Except SheetErr String × List Call
  | parent, _, [] => (Except.ok parent, [])
  | parent, done, p :: rest =>
    let mt := if rest.isEmpty then mimeSpreadsheet else mimeFolder
    let call : Call := ⟨parent, p, some mt⟩
    match sheetQuery st parent p mt with
    | [] =>
      if rest.isEmpty then
        (Except.error (SheetErr.spreadsheetNotFound orig), [call])
      else
        (Except.error (SheetErr.folderNotFound
          (strJoin "/" (done ++ [p]))), [call])
    | e :: _ =>
      let res := sheetLoop st orig e.id (done ++ [p]) rest
      (res.1, call :: res.2)

/-- `getSpreadsheetIdWithContext`: clean, reject traversal, reject the
empty path, else walk the segments with mime-filtered lookups. -/
def getSpreadsheetId (st : Store) (rootID spreadsheetName : String) :
    Except SheetErr String × List Call :=
  let fp := cleanPath spreadsheetName
  if strHasPrefix fp ".." || strHasPrefix fp "/" then
    (Except.error SheetErr.invalidPath, [])
  else if fp = "." || fp = "" then (Except.error SheetErr.emptyName, [])
  else sheetLoop st spreadsheetName rootID [] (strSplit fp '/')

/-- The mime clauses `getSpreadsheetIdWithContext` uses for a segment
list: folder for every segment but the last, spreadsheet for the last. -/
def mimesFor : List String → List String
  | [] => []
  | [_] => [mimeSpreadsheet]
  | _ :: b :: rest => mimeFolder :: mimesFor (b :: rest)

/-! ## Column letters and A1-range parsing (`google-sheet.go`) -/

/-- Loop of `columnIndexToLetter`, on the already-decremented value `n`;
the Go loop terminates because `n/26 - 1 < n`, here made explicit through
a fuel argument (any fuel above `n` suffices, and the wrapper below always
passes enough). -/
def colAux : Nat → Nat → String
  | 0, _ => ""
  | fuel + 1, n =>
    if n < 26 then String.singleton (Char.ofNat (65 + n))
    else colAux fuel (n / 26 - 1) ++ String.singleton (Char.ofNat (65 + n % 26))

/-- `columnIndexToLetter`: bijective base-26 letters of a 1-based column
index.  Models the Go function on `index ≥ 1`, where its `int64`
arithmetic stays non-negative. -/
def columnIndexToLetter (index : Int) : String :=
  colAux ((index - 1).toNat + 1) (index - 1).toNat

/-- Is `c` an ASCII uppercase letter (the Go test `c >= 'A' && c <= 'Z'`)? -/
def isUpperAZ (c : Char) : Bool :=
  65 ≤ c.toNat && c.toNat ≤ 90

/-- Decimal digit run to an integer: `none` unless `ds` is a non-empty
run of decimal digits. -/
def digitsToInt (sign : Int) (ds : List Char) : Option Int :=
  if ds = [] then none
  else if ds.all (fun c => c.isDigit) then
    some (sign * ds.foldl (fun a c => a * 10 + ((c.toNat : Int) - 48)) 0)
  else none

/-- Go `strconv.ParseInt(s, 10, 64)` restricted to the range where no
64-bit overflow occurs: an optional sign (`+` is `Char.ofNat 43`, `-` is
`Char.ofNat 45`), then a non-empty run of decimal digits and nothing
else; `none` models the returned error. -/
def parseIntDec (s : String) : Option Int :=
  match s.toList with
  | [] => none
  | c :: r =>
    if c = Char.ofNat 43 then digitsToInt 1 r
    else if c = Char.ofNat 45 then digitsToInt (-1) r
    else digitsToInt 1 (c :: r)

/-- The text of the start cell that `startIndexFromRange` parses a row
number from: everything of the part before the first `:` that follows the
leading uppercase-letter run. -/
def rangeRowPart (rangeStr : String) : String :=
  String.mk (((strSplit rangeStr ':').headD "").toList.dropWhile isUpperAZ)

/-- `startIndexFromRange`: 1-based (column, row) of the start cell of an
A1 range string; errors on an empty string and on a row part that
`strconv.ParseInt` rejects. -/
def startIndexFromRange (rangeStr : String) : Except String (Int × Int) :=
  if rangeStr = "" then Except.error "range must be specified"
  else
    let start := (strSplit rangeStr ':').headD ""
    let colChars := start.toList.takeWhile isUpperAZ
    let col := colChars.foldl (fun a c => a * 26 + ((c.toNat : Int) - 64)) 0
    match parseIntDec (rangeRowPart rangeStr) with
    | none => Except.error ("invalid range: " ++ rangeStr)
    | some row => Except.ok (col, row)

/-! ## Table rendering and the read_data handler -/

/-- A single ASCII apostrophe, as used by the Go format strings. -/
def quo : String := String.singleton (Char.ofNat 39)

/-- Width of the widest row (Go computes this as `maxWidth`). -/
def maxWidth (values : List (List String)) : Nat :=
  values.foldl (fun m row => Nat.max m row.length) 0

/-- `formatTableData`: markdown table of `values` headed by column
letters starting at `startColumn` and row numbers starting at `startRow`.
Cell values are modelled as the strings Go's `%v` would print. -/
def formatTableData (startColumn startRow : Int) (values : List (List String)) :
    String :=
  let w := maxWidth values
  let headers := " " :: (List.range w).map
    (fun i => "**" ++ columnIndexToLetter (startColumn + (i : Int)) ++ "**")
  let borders := List.replicate (w + 1) "---"
  let headLine := "| " ++ strJoin " | " headers ++ "|\n"
  let borderLine := "|" ++ strJoin "|" borders ++ "|\n"
  let rowLines := values.enum.map (fun p =>
    let cells := ("**" ++ toString (startRow + (p.1 : Int)) ++ "**")
      :: (p.2 ++ List.replicate (w - p.2.length) "")
    "| " ++ strJoin " | " cells ++ " |\n")
  headLine ++ borderLine ++ String.join rowLines

/-- Header line of a `GetSheetDataHandler` response. -/
def dataHeader (spreadsheetName sheetName rng : String) : String :=
  "Data from sheet " ++ quo ++ sheetName ++ quo ++ " in spreadsheet " ++
    quo ++ spreadsheetName ++ quo ++
    (if rng = "" then "" else " (range: " ++ rng ++ ")") ++ ":\n\n"

/-- `GetSheetDataHandler`, from the point where the range read returned
`values`: the empty read short-circuits to the "No data found." marker;
otherwise a non-empty range must parse, and the table plus the totals
line is rendered. -/
def getSheetDataText (spreadsheetName sheetName rng : String)
    (values : List (List String)) : Except String String :=
  let hdr := dataHeader spreadsheetName sheetName rng
  if values.isEmpty then Except.ok (hdr ++ "No data found.")
  else
    match (if rng = "" then Except.ok ((1 : Int), (1 : Int))
           else startIndexFromRange rng) with
    | Except.error e => Except.error e
    | Except.ok sc =>
      Except.ok (hdr ++ formatTableData sc.1 sc.2 values ++
        "\nTotal: " ++ toString values.length ++ " rows x " ++
        toString (maxWidth values) ++ " columns\n")

/-! ## Row/column structural handlers (`google-sheet.go`) -/

/-- Dimension of a structural request. -/
inductive Dim where
  | rows
  | cols
deriving DecidableEq, Repr

/-- A Sheets-API call issued by a structural handler, in issue order:
an A1 values read of 1-based rows `a..b`, or an insert/delete dimension
request on a 0-based half-open index range `[s, e)`. -/
inductive SheetOp where
  | readRows (a b : Int)
  | insertDim (d : Dim) (s e : Int)
  | deleteDim (d : Dim) (s e : Int)
deriving DecidableEq, Repr

/-- `AddRowsHandler`, after spreadsheet/sheet resolution: argument checks,
then the `InsertDimension` request it issues. -/
def addRowsPlan (count startRow : Int) : Except String SheetOp :=
  if count ≤ 0 then Except.error "count must be a positive number"
  else if startRow ≤ 0 then Except.error "start_row must be a positive number"
  else Except.ok (SheetOp.insertDim Dim.rows (startRow - 1) (startRow + count - 1))

/-- `AddColumnsHandler`, after spreadsheet/sheet resolution. -/
def addColumnsPlan (count startColumn : Int) : Except String SheetOp :=
  if count ≤ 0 then Except.error "count must be a positive number"
  else if startColumn ≤ 0 then
    Except.error "start_column must be a positive number"
  else
    Except.ok (SheetOp.insertDim Dim.cols (startColumn - 1)
      (startColumn + count - 1))

/-- What a `Values.Get` over the A1 row range `a:b` (1-based, inclusive)
returns on a tab whose value rows are `sheet`. -/
def readRowsA1 (sheet : List (List String)) (a b : Int) : List (List String) :=
  (sheet.drop (a - 1).toNat).take (b - a + 1).toNat

/-- Response message of `DeleteRowsHandler` (Go builds `message` and then
appends the rendered previous data). -/
def deleteRowsMsg (spreadsheetName sheetName : String) (count startRow : Int)
    (prev : List (List String)) : String :=
  "Successfully deleted " ++ toString count ++ " rows starting at index " ++
    toString startRow ++ " in sheet " ++ quo ++ sheetName ++ quo ++
    " of spreadsheet " ++ quo ++ spreadsheetName ++ quo ++
    "\n\nDeleted data (" ++ toString prev.length ++ " rows x " ++
    toString (prev.headD []).length ++
    " columns) has been saved. To undo this change, you can use the saved data." ++
    "\n\nDeleted data details:\n\n" ++ formatTableData 1 startRow prev

/-- `DeleteRowsHandler`, after spreadsheet/sheet resolution, against a tab
whose current value rows are `sheet`: argument checks, then the
`Values.Get` over 1-based rows `startRow..startRow+count-1` followed by
the `DeleteDimension` request, in that order; returns the issued calls,
the read result embedded in the response, and the response text. -/
def deleteRowsHandlerM (spreadsheetName sheetName : String)
    (sheet : List (List String)) (count startRow : Int) :
    Except String (List SheetOp × List (List String) × String) :=
  if count ≤ 0 then Except.error "count must be a positive number"
  else if startRow ≤ 0 then Except.error "start row must be a positive number"
  else
    let prev := readRowsA1 sheet startRow (startRow + count - 1)
    Except.ok
      ([SheetOp.readRows startRow (startRow + count - 1),
        SheetOp.deleteDim Dim.rows (startRow - 1) (startRow + count - 1)],
       prev,
       deleteRowsMsg spreadsheetName sheetName count startRow prev)

/-! ## The copy_file handler (`google-drive.go`) -/

/-- The arguments the final `Files.Copy` call of `CopyFileHandler`
receives: the source id, and the new parent and name of the copy. -/
structure CopyParams where
  srcId : String
  dstParent : String
  dstName : String
deriving DecidableEq, Repr

/-- A `Files.Get` by id against the store. -/
def filesGet (st : Store) (id : String) : Except DriveErr Entry :=
  match st.find? (fun e => e.id = id) with
  | some e => Except.ok e
  | none => Except.error (DriveErr.getFailed id)

/-- `CopyFileHandler`: resolve the source path, fetch the source entry,
resolve the destination into (parent, leaf), fall back to the source name
when the leaf is empty, and return the copy arguments. -/
def copyFilePlan (st : Store) (rootID srcPath dstPath : String) :
    Except DriveErr CopyParams :=
  match (getFileIDByPath st rootID srcPath).1 with
  | Except.error e => Except.error e
  | Except.ok srcId =>
    match filesGet st srcId with
    | Except.error e => Except.error e
    | Except.ok srcFile =>
      match (getParentIDAndFileName st rootID dstPath).1 with
      | Except.error e => Except.error e
      | Except.ok pidName =>
        let dstName := if pidName.2 = "" then srcFile.name else pidName.2
        Except.ok ⟨srcId, pidName.1, dstName⟩

/-! ## Concrete stores used by counterexamples and witnesses -/

/-- Store with a single spreadsheet `b` under the root `R`. -/
def c1Store : Store := [⟨"B", "R", "b", mimeSpreadsheet, false⟩]

/-- Store with a folder `Archive` under the root `R` and nothing else
(in particular no `2024` folder). -/
def c2Store : Store := [⟨"F1", "R", "Archive", mimeFolder, false⟩]

/-- Store with a folder `Folder` and a spreadsheet `a.xlsx`, both under
the root `R`. -/
def c5Store : Store :=
  [⟨"F", "R", "Folder", mimeFolder, false⟩,
   ⟨"A", "R", "a.xlsx", mimeSpreadsheet, false⟩]

/-! ## Claims -/

/-- C1, counterexample: the input `a/../b` contains a `..` segment, yet
drive path resolution does not fail with the invalid-path error and does
issue a store lookup — `path.Clean` collapses the `a/..` pair first, so
the traversal check never sees the `..`. -/
theorem c1_counterexample :
    hasDotDotSegment "a/../b" = true ∧
    getFileIDByPath c1Store "R" "a/../b"
      = (Except.ok "B", [⟨"R", "b", none⟩]) :=
  ⟨by decide, by decide⟩

/-- C1 (amended): for every input path whose normalized form
(`path.Clean`) begins with `..` or `/` — which covers every input with a
leading `/` — all three resolvers (`getFileIDByPath`,
`getParentIDAndFileName`, `getSpreadsheetId`) fail with the invalid-path
error and make no store calls. -/
theorem c1_theorem (st : Store) (root p : String)
    (h : (strHasPrefix (cleanPath p) ".." || strHasPrefix (cleanPath p) "/") = true) :
    getFileIDByPath st root p = (Except.error DriveErr.invalidPath, []) ∧
    getParentIDAndFileName st root p = (Except.error DriveErr.invalidPath, []) ∧
    getSpreadsheetId st root p = (Except.error SheetErr.invalidPath, []) := by
  refine ⟨?_, ?_, ?_⟩ <;>
    simp [getFileIDByPath, getParentIDAndFileName, getSpreadsheetId, h]

/-- C1 witness: the amended theorem applied at the concrete input `../x`. -/
theorem c1_witness :
    ((strHasPrefix (cleanPath "../x") ".."
        || strHasPrefix (cleanPath "../x") "/") = true) ∧
    getFileIDByPath [] "R" "../x" = (Except.error DriveErr.invalidPath, []) ∧
    getParentIDAndFileName [] "R" "../x"
      = (Except.error DriveErr.invalidPath, []) ∧
    getSpreadsheetId [] "R" "../x" = (Except.error SheetErr.invalidPath, []) :=
  ⟨by decide, (c1_theorem [] "R" "../x" (by decide)).1,
   (c1_theorem [] "R" "../x" (by decide)).2.1,
   (c1_theorem [] "R" "../x" (by decide)).2.2⟩

/-- C4: `add_rows` (and `add_columns`) invoked without a start position —
the Go zero value 0 of the omitted `start_row`/`start_column` — is
rejected with an error instead of appending at the end, contradicting the
tool schema text "If not specified, rows will be added at the end."
and the handler's own dead append-at-the-end message branch. -/
theorem c4_theorem :
    addRowsPlan 3 0 = Except.error "start_row must be a positive number" ∧
    addColumnsPlan 3 0 = Except.error "start_column must be a positive number" :=
  ⟨by decide, by decide⟩

/-- C5: `copy_file` with destination `Folder/` (empty leaf in the raw
input) does not copy into `Folder` under the source's name: `path.Clean`
strips the trailing slash first, so the destination resolves to parent
`R` (the root) and leaf name `Folder`, and the source-name fallback for
an empty leaf is unreachable.  The copy request the handler issues names
the copy `Folder` and places it in the root, not `a.xlsx` inside
`Folder`. -/
theorem c5_theorem :
    copyFilePlan c5Store "R" "a.xlsx" "Folder/"
      = Except.ok ⟨"A", "R", "Folder"⟩ ∧
    (getParentIDAndFileName c5Store "R" "Folder/").1
      = Except.ok ("R", "Folder") :=
  ⟨by decide, by decide⟩

/-- C7: `columnIndexToLetter` is the bijective base-26 encoding on the
claimed sample points 1, 26, 27, 52, 53, 702, 703, and composing with
the column extraction of `startIndexFromRange` returns the original
index on each of them. -/
theorem c7_theorem :
    columnIndexToLetter 1 = "A" ∧ columnIndexToLetter 26 = "Z" ∧
    columnIndexToLetter 27 = "AA" ∧ columnIndexToLetter 52 = "AZ" ∧
    columnIndexToLetter 53 = "BA" ∧ columnIndexToLetter 702 = "ZZ" ∧
    columnIndexToLetter 703 = "AAA" ∧
    startIndexFromRange (columnIndexToLetter 1 ++ "1") = Except.ok (1, 1) ∧
    startIndexFromRange (columnIndexToLetter 26 ++ "1") = Except.ok (26, 1) ∧
    startIndexFromRange (columnIndexToLetter 27 ++ "1") = Except.ok (27, 1) ∧
    startIndexFromRange (columnIndexToLetter 52 ++ "1") = Except.ok (52, 1) ∧
    startIndexFromRange (columnIndexToLetter 53 ++ "1") = Except.ok (53, 1) ∧
    startIndexFromRange (columnIndexToLetter 702 ++ "1") = Except.ok (702, 1) ∧
    startIndexFromRange (columnIndexToLetter 703 ++ "1") = Except.ok (703, 1) := by
  decide

/-- C8, counterexample: the read_data response for an empty read does
contain the "No data found" marker, but contains no "Total" line at all —
the handler returns before the totals line is written, so the response
does not report zero row/column totals as the claim states. -/
theorem c8_counterexample :
    strContains ((getSheetDataText "Book" "Sheet1" "" []).toOption.getD "")
        "No data found" = true ∧
    strContains ((getSheetDataText "Book" "Sheet1" "" []).toOption.getD "")
        "Total" = false := by
  decide

/-- C8 (amended): read_data on a read that returned zero rows appends the
literal "No data found." marker to the header and stops: no table and no
totals line is rendered (the totals are omitted, not reported as zero). -/
theorem c8_theorem :
    (∀ spn shn rng : String,
      getSheetDataText spn shn rng []
        = Except.ok (dataHeader spn shn rng ++ "No data found.")) ∧
    strContains ((getSheetDataText "Book" "Sheet1" "" []).toOption.getD "")
        "|" = false := by
  exact ⟨fun spn shn rng => rfl, by decide⟩

/-- Twelve-row sheet used by the C6 witness. -/
def c6Sheet : List (List String) :=
  [["r1"], ["r2"], ["r3"], ["r4"], ["r5"], ["r6"], ["r7"], ["r8"],
   ["r9"], ["r10"], ["r11"], ["r12"]]

/-- C9: on every input that `path.Clean` normalizes to `.` (the empty
path, `.`, `a/..`, `./`, …), spreadsheet resolution fails with the
"spreadsheet name cannot be empty" error and issues no store call, while
drive resolution returns the configured root folder id, also without any
store call. -/
theorem c9_theorem (st : Store) (root p : String) (h : cleanPath p = ".") :
    getSpreadsheetId st root p = (Except.error SheetErr.emptyName, []) ∧
    getFileIDByPath st root p = (Except.ok root, []) := by
  have h1 : (strHasPrefix "." ".." || strHasPrefix "." "/") = false := by decide
  constructor <;> simp [getSpreadsheetId, getFileIDByPath, h, h1]

/-- C9 witness: the theorem applied at the concrete input `a/..`. -/
theorem c9_witness :
    cleanPath "a/.." = "." ∧
    getSpreadsheetId [] "R" "a/.." = (Except.error SheetErr.emptyName, []) ∧
    getFileIDByPath [] "R" "a/.." = (Except.ok "R", []) :=
  ⟨by decide, (c9_theorem [] "R" "a/.." (by decide)).1,
   (c9_theorem [] "R" "a/.." (by decide)).2⟩

/-- C3: for positive `count` and 1-based `startRow`, both the add_rows
insert request and the delete_rows delete request carry the 0-based
half-open dimension range `[startRow-1, startRow-1+count)`. -/
theorem c3_theorem (c s : Int) (hc : 0 < c) (hs : 0 < s) :
    addRowsPlan c s
      = Except.ok (SheetOp.insertDim Dim.rows (s - 1) (s - 1 + c)) ∧
    ∀ spn shn sheet, ∃ prev msg,
      deleteRowsHandlerM spn shn sheet c s =
        Except.ok ([SheetOp.readRows s (s + c - 1),
          SheetOp.deleteDim Dim.rows (s - 1) (s - 1 + c)], prev, msg) := by
  have h1 : ¬ c ≤ 0 := by omega
  have h2 : ¬ s ≤ 0 := by omega
  have h3 : s + c - 1 = s - 1 + c := by ring
  constructor
  · simp [addRowsPlan, h1, h2, h3]
  · intro spn shn sheet
    refine ⟨readRowsA1 sheet s (s - 1 + c),
      deleteRowsMsg spn shn c s (readRowsA1 sheet s (s - 1 + c)), ?_⟩
    simp [deleteRowsHandlerM, h1, h2, h3]

/-- C3 witness: the theorem applied at `count = 3`, `startRow = 5`,
yielding the range `[4, 7)`. -/
theorem c3_witness :
    ((0 : Int) < 3 ∧ (0 : Int) < 5) ∧
    addRowsPlan 3 5 = Except.ok (SheetOp.insertDim Dim.rows 4 7) ∧
    ∃ prev msg,
      deleteRowsHandlerM "Book" "Sheet1" [] 3 5 =
        Except.ok ([SheetOp.readRows 5 7, SheetOp.deleteDim Dim.rows 4 7],
          prev, msg) := by
  have h := c3_theorem 3 5 (by norm_num) (by norm_num)
  refine ⟨⟨by norm_num, by norm_num⟩, by simpa using h.1, ?_⟩
  obtain ⟨prev, msg, hm⟩ := h.2 "Book" "Sheet1" []
  exact ⟨prev, msg, by simpa using hm⟩

/-- C6: delete_rows rejects non-positive `count` and `startRow`; with
both positive it issues the 1-based read of rows
`[startRow, startRow+count-1]` strictly before the dimension delete, and
the rows the read returned — the rows of the pre-delete sheet — are
embedded in the response as the deleted data. -/
theorem c6_theorem (spn shn : String) (sheet : List (List String))
    (c s : Int) :
    (c ≤ 0 → deleteRowsHandlerM spn shn sheet c s
      = Except.error "count must be a positive number") ∧
    (0 < c → s ≤ 0 → deleteRowsHandlerM spn shn sheet c s
      = Except.error "start row must be a positive number") ∧
    (0 < c → 0 < s →
      deleteRowsHandlerM spn shn sheet c s =
        Except.ok ([SheetOp.readRows s (s + c - 1),
            SheetOp.deleteDim Dim.rows (s - 1) (s + c - 1)],
          (sheet.drop (s - 1).toNat).take c.toNat,
          deleteRowsMsg spn shn c s
            ((sheet.drop (s - 1).toNat).take c.toNat))) := by
  refine ⟨?_, ?_, ?_⟩
  · intro h
    simp [deleteRowsHandlerM, h]
  · intro hc hs
    have h1 : ¬ c ≤ 0 := by omega
    simp [deleteRowsHandlerM, h1, hs]
  · intro hc hs
    have h1 : ¬ c ≤ 0 := by omega
    have h2 : ¬ s ≤ 0 := by omega
    have h3 : (s + c - 1 - s + 1).toNat = c.toNat := by omega
    simp [deleteRowsHandlerM, readRowsA1, h1, h2, h3]

/-- C6 witness: the theorem applied on a 12-row sheet with `count = 2`,
`startRow = 10`: rows 10 and 11 are read before the delete over `[9, 11)`
and the previous-data table has exactly 2 rows. -/
theorem c6_witness :
    deleteRowsHandlerM "Book" "Sheet1" c6Sheet 2 10 =
      Except.ok ([SheetOp.readRows 10 (10 + 2 - 1),
          SheetOp.deleteDim Dim.rows (10 - 1) (10 + 2 - 1)],
        (c6Sheet.drop ((10 : Int) - 1).toNat).take (2 : Int).toNat,
        deleteRowsMsg "Book" "Sheet1" 2 10
          ((c6Sheet.drop ((10 : Int) - 1).toNat).take (2 : Int).toNat)) ∧
    ((c6Sheet.drop ((10 : Int) - 1).toNat).take (2 : Int).toNat).length = 2 ∧
    (c6Sheet.drop ((10 : Int) - 1).toNat).take (2 : Int).toNat
      = [["r10"], ["r11"]] :=
  ⟨( c6_theorem "Book" "Sheet1" c6Sheet 2 10).2.2 (by norm_num) (by norm_num),
   by decide, by decide⟩

/-- Helper for C10: a digit run containing no digit at all never
parses. -/
theorem digitsToInt_eq_none (sign : Int) (ds : List Char)
    (h : ds.all (fun c => !c.isDigit) = true) : digitsToInt sign ds = none := by
  cases ds with
  | nil => rfl
  | cons x r =>
    simp only [List.all_cons, Bool.and_eq_true, Bool.not_eq_true'] at h
    simp [digitsToInt, h.1]

/-- Helper for C10: a string containing no digit at all never parses as
an integer. -/
theorem parseIntDec_eq_none (s : String)
    (h : s.toList.all (fun c => !c.isDigit) = true) : parseIntDec s = none := by
  unfold parseIntDec
  rcases hc : s.toList with _ | ⟨c, r⟩
  · rfl
  · rw [hc] at h
    simp only [List.all_cons, Bool.and_eq_true] at h
    obtain ⟨hcd, hr⟩ := h
    by_cases h43 : c = Char.ofNat 43
    · simp [h43, digitsToInt_eq_none 1 r hr]
    · by_cases h45 : c = Char.ofNat 45
      · simp [h43, h45, digitsToInt_eq_none (-1) r hr]
      · have : (c :: r).all (fun c => !c.isDigit) = true := by
          simp [List.all_cons, hcd, hr]
        simp [h43, h45, digitsToInt_eq_none 1 (c :: r) this]

/-- C10: whenever the start cell of a range string has no decimal digit
after its leading letter run (including the empty range string),
`startIndexFromRange` fails; consequently read_data with such a
non-empty range fails even when the store read of the range returned
rows. -/
theorem c10_theorem (rng : String)
    (h : rng = "" ∨ (rangeRowPart rng).toList.all (fun c => !c.isDigit) = true) :
    (∃ e, startIndexFromRange rng = Except.error e) ∧
    (rng ≠ "" → ∀ spn shn : String, ∀ values : List (List String),
      values ≠ [] → ∃ e, getSheetDataText spn shn rng values
        = Except.error e) := by
  by_cases hrng : rng = ""
  · subst hrng
    exact ⟨⟨"range must be specified", rfl⟩, fun hne => absurd rfl hne⟩
  · have hall := h.resolve_left hrng
    have hnone : parseIntDec (rangeRowPart rng) = none :=
      parseIntDec_eq_none _ hall
    have herr : startIndexFromRange rng
        = Except.error ("invalid range: " ++ rng) := by
      simp [startIndexFromRange, hrng, hnone]
    refine ⟨⟨_, herr⟩, fun _ spn shn values hv => ?_⟩
    have hve : values.isEmpty = false := by
      cases values with
      | nil => exact absurd rfl hv
      | cons a l => rfl
    refine ⟨"invalid range: " ++ rng, ?_⟩
    simp [getSheetDataText, hve, hrng, herr]

/-- C10 witness: the theorem applied at the range `A:C` (letters only,
no digit run) with a successful one-row read. -/
theorem c10_witness :
    (rangeRowPart "A:C").toList.all (fun c => !c.isDigit) = true ∧
    (∃ e, startIndexFromRange "A:C" = Except.error e) ∧
    (∃ e, getSheetDataText "Book" "Sheet1" "A:C" [["x"]]
      = Except.error e) :=
  ⟨by decide, ( c10_theorem "A:C" (Or.inr (by decide))).1,
   ( c10_theorem "A:C" (Or.inr (by decide))).2 (by decide) "Book" "Sheet1"
     [["x"]] (by decide)⟩

/-- Definitional unfolding of `sheetLoop` on a non-empty segment list. -/
theorem sheetLoop_cons_eq (st : Store) (orig parent : String)
    (done : List String) (p : String) (rest : List String) :
    sheetLoop st orig parent done (p :: rest)
      = (match sheetQuery st parent p
            (if rest.isEmpty then mimeSpreadsheet else mimeFolder) with
        | [] =>
          if rest.isEmpty then
            (Except.error (SheetErr.spreadsheetNotFound orig),
             [⟨parent, p,
               some (if rest.isEmpty then mimeSpreadsheet else mimeFolder)⟩])
          else
            (Except.error (SheetErr.folderNotFound
               (strJoin "/" (done ++ [p]))),
             [⟨parent, p,
               some (if rest.isEmpty then mimeSpreadsheet else mimeFolder)⟩])
        | e :: _ =>
          ((sheetLoop st orig e.id (done ++ [p]) rest).1,
           ⟨parent, p,
             some (if rest.isEmpty then mimeSpreadsheet else mimeFolder)⟩
             :: (sheetLoop st orig e.id (done ++ [p]) rest).2)) := rfl

/-- Trace lemma for C2: along the walk of `sheetLoop`, the recorded
calls cover an initial run of the segments in order, with the folder
mime clause everywhere but the last segment and the spreadsheet clause
on the last; a successful walk issues exactly one call per segment, and
a folder-not-found error carries exactly the consumed segments. -/
theorem sheetLoop_trace (st : Store) (orig : String) (segs : List String) :
    ∀ (parent : String) (done : List String),
    ((sheetLoop st orig parent done segs).2.map Call.name
      = segs.take (sheetLoop st orig parent done segs).2.length) ∧
    ((sheetLoop st orig parent done segs).2.map Call.mime
      = ((mimesFor segs).take
          (sheetLoop st orig parent done segs).2.length).map some) ∧
    (∀ x, (sheetLoop st orig parent done segs).1 = Except.ok x →
      (sheetLoop st orig parent done segs).2.length = segs.length) ∧
    (∀ m, (sheetLoop st orig parent done segs).1
        = Except.error (SheetErr.folderNotFound m) →
      m = strJoin "/"
          (done ++ segs.take (sheetLoop st orig parent done segs).2.length) ∧
      (sheetLoop st orig parent done segs).2.length < segs.length) := by
  induction segs with
  | nil =>
    intro parent done
    simp [sheetLoop]
  | cons p rest ih =>
    intro parent done
    rw [sheetLoop_cons_eq]
    cases rest with
    | nil =>
      cases hq : sheetQuery st parent p mimeSpreadsheet with
      | nil =>
        simp [hq, mimesFor]
      | cons e es =>
        simp [hq, mimesFor, sheetLoop]
    | cons b bs =>
      cases hq : sheetQuery st parent p mimeFolder with
      | nil =>
        simp [hq, mimesFor]
      | cons e es =>
        obtain ⟨hname, hmime, hok, hnf⟩ := ih e.id (done ++ [p])
        simp only [hq, List.isEmpty_cons, Bool.false_eq_true, if_false,
          List.map_cons, List.length_cons]
        refine ⟨?_, ?_, ?_, ?_⟩
        · simp [hname]
        · simp [hmime, mimesFor]
        · intro x hx
          simp [hok x hx]
        · intro m hm
          obtain ⟨h1, h2⟩ := hnf m hm
          simp only [List.length_cons] at h2
          refine ⟨?_, by omega⟩
          simpa [List.append_assoc] using h1

/-- C2: spreadsheet path resolution issues at most one store lookup per
normalized path segment, in segment order, filtering every segment but
the last to the folder mime type and the last to the spreadsheet mime
type; a successful resolution issues exactly one lookup per segment, and
when an intermediate segment has no match the error carries exactly the
consumed segment run (a strict initial part of the path), not the full
path. -/
theorem c2_theorem (st : Store) (root p : String) :
    ((getSpreadsheetId st root p).2.map Call.name
      = (strSplit (cleanPath p) '/').take
          (getSpreadsheetId st root p).2.length) ∧
    ((getSpreadsheetId st root p).2.map Call.mime
      = ((mimesFor (strSplit (cleanPath p) '/')).take
          (getSpreadsheetId st root p).2.length).map some) ∧
    (∀ x, (getSpreadsheetId st root p).1 = Except.ok x →
      (getSpreadsheetId st root p).2.length
        = (strSplit (cleanPath p) '/').length) ∧
    (∀ m, (getSpreadsheetId st root p).1
        = Except.error (SheetErr.folderNotFound m) →
      m = strJoin "/" ((strSplit (cleanPath p) '/').take
            (getSpreadsheetId st root p).2.length) ∧
      (getSpreadsheetId st root p).2.length
        < (strSplit (cleanPath p) '/').length) := by
  by_cases h1 : (strHasPrefix (cleanPath p) ".."
      || strHasPrefix (cleanPath p) "/") = true
  · simp [getSpreadsheetId, h1]
  · by_cases h2 : cleanPath p = "."
    · simp [getSpreadsheetId, h2,
        show strHasPrefix "." ".." = false from by decide,
        show strHasPrefix "." "/" = false from by decide]
    · by_cases h3 : cleanPath p = ""
      · simp [getSpreadsheetId, h3,
          show strHasPrefix "" ".." = false from by decide,
          show strHasPrefix "" "/" = false from by decide,
          show ¬(("" : String) = ".") from by decide]
      · have hg : getSpreadsheetId st root p
            = sheetLoop st p root [] (strSplit (cleanPath p) '/') := by
          simp [getSpreadsheetId, h1, h2, h3]
        rw [hg]
        simpa using sheetLoop_trace st p (strSplit (cleanPath p) '/') root []

/-- C2 witness: the theorem applied to the end-to-end scenario of the
spec — `Archive/2024/Report.xlsx` against a store in which `Archive`
exists under the root `R` but `2024` does not: two folder-typed lookups
are issued and the error names exactly the consumed run
`Archive/2024`. -/
theorem c2_witness :
    (getSpreadsheetId c2Store "R" "Archive/2024/Report.xlsx").1
      = Except.error (SheetErr.folderNotFound "Archive/2024") ∧
    ("Archive/2024"
      = strJoin "/"
          ((strSplit (cleanPath "Archive/2024/Report.xlsx") '/').take
            (getSpreadsheetId c2Store "R" "Archive/2024/Report.xlsx").2.length) ∧
      (getSpreadsheetId c2Store "R" "Archive/2024/Report.xlsx").2.length
        < (strSplit (cleanPath "Archive/2024/Report.xlsx") '/').length) ∧
    (getSpreadsheetId c2Store "R" "Archive/2024/Report.xlsx").2.map Call.name
      = ["Archive", "2024"] ∧
    (getSpreadsheetId c2Store "R" "Archive/2024/Report.xlsx").2.map Call.mime
      = [some mimeFolder, some mimeFolder] :=
  ⟨by decide,
   (c2_theorem c2Store "R" "Archive/2024/Report.xlsx").2.2.2 "Archive/2024"
     (by decide),
   by decide, by decide⟩

end McpGSheet
